import Mathlib

/-!
Verification of the authentication core of servicegateway
(src/auth/handler.go): the credential delegator (Authenticate),
the pre-auth hook integration, and the token validity cache
(IsAuthenticated).

The Go code is shallowly embedded: Go maps become association lists,
the go-cache instance becomes a function from token strings to an
optional stored value, and the dynamically typed cache values
(interface values) become an explicit inductive recording the Go
dynamic type (int vs int64), so that the type assertion exp.(int64)
at handler.go:262 and the interface comparison exp == 0 at
handler.go:265 can be modelled faithfully.  External collaborators
(token reader, token verifier, HTTP transport, the otto scripting
runtime) are inputs to the embedded functions: each call receives
the outcome those collaborators would produce.
-/

namespace ServiceGateway

/-- A Go interface value as stored in the expiry cache.  The
never-expires path (handler.go:271) stores the untyped constant 0,
whose Go default type is int; the expiring path (handler.go:276)
stores stdClaims.ExpiresAt, an int64. -/
inductive GoVal where
  | vint (n : Int)
  | vint64 (n : Int)
deriving DecidableEq, Repr

/-- The Go type assertion exp.(int64) (handler.go:262).  It succeeds
exactly on values whose dynamic type is int64; on any other dynamic
type the single-result form panics. -/
def assertInt64 : GoVal → Option Int
  | GoVal.vint64 n => some n
  | GoVal.vint _ => none

/-- The Go interface comparison exp == 0 (handler.go:265): the untyped
constant 0 is converted to int, and an interface comparison is true
only when dynamic types match and values are equal. -/
def goEqZeroInt : GoVal → Bool
  | GoVal.vint n => n == 0
  | GoVal.vint64 _ => false

/-- JWTResponse (handler.go:54): the token value returned by the
token reader and by IsAuthenticated. -/
structure JWTResponse where
  jwt : String
  allowedApplications : List String
deriving DecidableEq, Repr

/-- Errors visible to IsAuthenticated: the reader's distinguished
no-token signal, other reader errors, the jwt-go *ValidationError
carrying its Errors bitmask, and any other verifier error. -/
inductive GoError where
  | noTokenError
  | readerError (tag : Nat)
  | jwtValidationError (errors : Nat)
  | verifierOtherError (tag : Nat)
deriving DecidableEq, Repr

/-- jwt.StandardClaims as used by the handler: only ExpiresAt is
read (0 = no expiry claim). -/
structure StandardClaims where
  expiresAt : Int
deriving DecidableEq, Repr

/-- The outcome a call to verifier.VerifyToken would produce:
the valid flag, the standard claims, and the error (none = nil). -/
structure VerifyOutput where
  valid : Bool
  claims : StandardClaims
  err : Option GoError
deriving DecidableEq, Repr

/-- The outcome tokenReader.TokenFromRequest would produce. -/
inductive ReaderOutcome where
  | ok (t : JWTResponse)
  | fail (e : GoError)
deriving DecidableEq, Repr

/-- The expiry cache (expCache): raw token string to stored value. -/
def ExpCache : Type := String → Option GoVal

/-- expCache.Set: point insertion, overwriting any previous entry. -/
def cacheSet (c : ExpCache) (k : String) (v : GoVal) : ExpCache :=
  fun q => if q = k then some v else c q

/-- The empty cache. -/
def emptyCache : ExpCache := fun _ => none

/-- The return value of IsAuthenticated, or the run-time panic raised
by a failed single-result type assertion. -/
inductive IsAuthRet where
  | ret (authenticated : Bool) (token : Option JWTResponse) (err : Option GoError)
  | panicked
deriving DecidableEq, Repr

/-- Result of one IsAuthenticated call: the returned triple (or
panic), the cache afterwards, and whether the verifier was invoked. -/
structure IsAuthResult where
  ret : IsAuthRet
  cache : ExpCache
  verifierCalled : Bool

/-- jwt-go bitmask constants: ValidationErrorSignatureInvalid = 4,
ValidationErrorExpired = 16; acceptableErrors is their or
(handler.go:282). -/
def acceptableErrors : Nat := 4 ||| 16

/-- AuthenticationHandler.IsAuthenticated (handler.go:250-294).
Inputs: the cache contents, the current Unix time, the token
reader outcome, and the verifier outcome a cache miss would see.
On a cache hit the stored value first goes through the exp.(int64)
assertion (handler.go:262): a value of dynamic type int makes the
call panic.  Otherwise the hit is valid iff exp == 0 (an interface
comparison against int 0, hence false for every int64 value) or the
asserted expiry is strictly after now. -/
def isAuthenticated (cache : ExpCache) (now : Int)
    (reader : ReaderOutcome) (verify : VerifyOutput) : IsAuthResult :=
  match reader with
  | ReaderOutcome.fail e =>
    if e = GoError.noTokenError then ⟨IsAuthRet.ret false none none, cache, false⟩
    else ⟨IsAuthRet.ret false none (some e), cache, false⟩
  | ReaderOutcome.ok token =>
    match cache token.jwt with
    | some exp =>
      match assertInt64 exp with
      | none => ⟨IsAuthRet.panicked, cache, false⟩
      | some expiry =>
        if goEqZeroInt exp || decide (expiry > now) then
          ⟨IsAuthRet.ret true (some token) none, cache, false⟩
        else
          ⟨IsAuthRet.ret false none none, cache, false⟩
    | none =>
      if verify.err = none ∧ verify.valid = true then
        if verify.claims.expiresAt = 0 then
          ⟨IsAuthRet.ret true (some token) none,
            cacheSet cache token.jwt (GoVal.vint 0), true⟩
        else if verify.claims.expiresAt > now then
          ⟨IsAuthRet.ret true (some token) none,
            cacheSet cache token.jwt (GoVal.vint64 verify.claims.expiresAt), true⟩
        else
          ⟨IsAuthRet.ret false none none, cache, true⟩
      else
        match verify.err with
        | some (GoError.jwtValidationError errs) =>
          if errs &&& acceptableErrors ≠ 0 then
            ⟨IsAuthRet.ret false none none, cache, true⟩
          else
            ⟨IsAuthRet.ret false none (some (GoError.jwtValidationError errs)), cache, true⟩
        | some e => ⟨IsAuthRet.ret false none (some e), cache, true⟩
        | none => ⟨IsAuthRet.ret false none none, cache, true⟩

/-- Whether the second character list starts the first. -/
def listStarts : List Char → List Char → Bool
  | _, [] => true
  | [], _ :: _ => false
  | c :: s, d :: p => c == d && listStarts s p

/-- Go strings.HasPrefix, as used at handler.go:228 on the
Content-Type header. -/
def strStarts (s pre : String) : Bool := listStarts s.data pre.data

/-- A JSON-serialisable value appearing in an authentication request
body.  Strings are modelled exactly; all other values are opaque
atoms, which is enough for the claims about injection, redaction,
logging and pass-through. -/
inductive AuthVal where
  | str (s : String)
  | atom (n : Nat)
deriving DecidableEq, Repr

/-- A Go map[string]interface body, as an association list in
insertion order (m[k] = v updates an existing key in place, else
appends). -/
abbrev AuthMap : Type := List (String × AuthVal)

/-- Go map write m[k] = v. -/
def mapSet (m : AuthMap) (k : String) (v : AuthVal) : AuthMap :=
  if (List.any m fun p => p.1 = k) then
    List.map (fun p => if p.1 = k then (k, v) else p) m
  else m ++ [(k, v)]

/-- Go comma-ok map read: whether key k is present. -/
def mapHasKey (m : AuthMap) (k : String) : Bool :=
  List.any m fun p => p.1 = k

/-- The outcome the otto hook invocation sequence (handler.go:115-180)
would produce for this call: one of the three early failures (script
run error, exports not a function, call error), or the hook result
value described by its truthiness, whether it is an object, and the
exports of its body / url / allowedApplications fields (none when
the field is absent or of the wrong dynamic type, in which case the
code keeps the corresponding default). -/
inductive HookOutcome where
  | runError
  | exportsNotFunction
  | callError
  | value (truthy : Bool) (isObject : Bool) (body : Option AuthMap)
      (url : Option String) (allowedApps : Option (List String))
deriving DecidableEq, Repr

/-- Errors Authenticate can return. -/
inductive AuthError where
  | invalidCredentials
  | hookRunError
  | hookNotFunction
  | hookCallError
  | hookNotObject
  | transportError
  | unexpectedStatus (status : Nat) (username : String) (body : String)
  | invalidResponseBodyContentType (contentType : String)
  | authenticationIncomplete (additionalProperties : AuthMap)
  | jsonDecodeError
deriving DecidableEq, Repr

/-- The provider's HTTP response: status code, Content-Type header,
raw body, and the result of JSON-decoding the body into a map (none
= decode error), used only on the 202 path. -/
structure ProviderResponse where
  status : Nat
  contentType : String
  body : String
  jsonBody : Option AuthMap
deriving DecidableEq, Repr

/-- The single outbound POST issued by Authenticate: target URL and
the request body as marshalled at handler.go:182 (before redaction). -/
structure OutboundRequest where
  url : String
  body : AuthMap
deriving DecidableEq, Repr

/-- One structured log line emitted by Authenticate, holding the
values passed to the logger. -/
inductive LogLine where
  | infoAuthenticating (username : String)
  | debugHookMappedBody (body : AuthMap)
  | debugHookUrl (url : String)
  | debugAllowedApps (apps : List String)
  | debugAuthRequest (body : AuthMap)
  | infoAdditionalFactorRequired (username : String)
  | warnInvalidCredentials (username : String) (respBody : String)
  | errorUnexpectedStatus (status : Nat) (username : String) (respBody : String)
deriving DecidableEq, Repr

/-- Whether the password string appears among the values of a body
map. -/
def mapMentions (pw : String) (m : AuthMap) : Bool :=
  List.any m fun p => p.2 = AuthVal.str pw

/-- Whether a log line carries the password string in one of its
logged values. -/
def logLineMentions (pw : String) : LogLine → Bool
  | LogLine.infoAuthenticating u => u = pw
  | LogLine.debugHookMappedBody m => mapMentions pw m
  | LogLine.debugHookUrl u => u = pw
  | LogLine.debugAllowedApps l => List.any l fun a => a = pw
  | LogLine.debugAuthRequest m => mapMentions pw m
  | LogLine.infoAdditionalFactorRequired u => u = pw
  | LogLine.warnInvalidCredentials u b => u = pw || b = pw
  | LogLine.errorUnexpectedStatus _ u b => u = pw || b = pw

/-- Static provider configuration read by Authenticate:
config.ProviderConfig.Parameters and config.ProviderConfig.Url. -/
structure AuthConfig where
  parameters : AuthMap
  url : String
deriving DecidableEq, Repr

/-- Result of one Authenticate call: the returned value or error, the
log lines emitted, the outbound request (none when no HTTP call was
made), and the configured parameters map as it stands after the call
(authRequest at handler.go:109 aliases that map, so writes through
the alias persist in the handler's configuration). -/
structure AuthCallResult where
  result : Except AuthError JWTResponse
  logs : List LogLine
  request : Option OutboundRequest
  finalParams : AuthMap
deriving Repr

/-- Outcome of the hook phase (handler.go:115-180): either an early
failure, or the body override (none = authRequest still aliases the
configured map), the request URL, the allowed applications, and the
debug log lines the phase emitted. -/
inductive HookPhase where
  | fail (e : AuthError)
  | proceed (bodyOverride : Option AuthMap) (requestURL : String)
      (apps : List String) (logs : List LogLine)
deriving Repr

/-- The hook phase, from the hook outcome (handler.go:115-180).
A falsy hook result fails with InvalidCredentialsError before the
object check; a truthy non-object fails loudly; the body is adopted
(and logged) only when its export is a map; url only when a string;
allowedApplications only when exported as a string slice. -/
def runHookPhase (requestURL : String) : Option HookOutcome → HookPhase
  | none => HookPhase.proceed none requestURL [] []
  | some HookOutcome.runError => HookPhase.fail AuthError.hookRunError
  | some HookOutcome.exportsNotFunction => HookPhase.fail AuthError.hookNotFunction
  | some HookOutcome.callError => HookPhase.fail AuthError.hookCallError
  | some (HookOutcome.value truthy isObject body url apps) =>
    if truthy = false then HookPhase.fail AuthError.invalidCredentials
    else if isObject = false then HookPhase.fail AuthError.hookNotObject
    else
      let st1 : Option AuthMap × List LogLine :=
        match body with
        | some b => (some b, [LogLine.debugHookMappedBody b])
        | none => (none, [])
      let st2 : String × List LogLine :=
        match url with
        | some u => (u, st1.2 ++ [LogLine.debugHookUrl u])
        | none => (requestURL, st1.2)
      let st3 : List String × List LogLine :=
        match apps with
        | some l => (l, st2.2 ++ [LogLine.debugAllowedApps l])
        | none => ([], st2.2)
      HookPhase.proceed st1.1 st2.1 st3.1 st3.2

/-- AuthenticationHandler.Authenticate (handler.go:106-248).
Inputs: the configuration, the hook outcome (none when no hook is
configured), the credentials, and the provider response the HTTP
transport would deliver (none = transport error).  authRequest
starts as an alias of cfg.parameters (handler.go:109), so the
username/password injection (110-111) and, unless the hook replaced
the body, the password redaction (187-190) mutate the configured
map itself; the outbound body is marshalled before redaction. -/
def authenticate (cfg : AuthConfig) (hook : Option HookOutcome)
    (username password : String)
    (transport : Option ProviderResponse) : AuthCallResult :=
  let cfg1 := mapSet (mapSet cfg.parameters "username" (AuthVal.str username))
      "password" (AuthVal.str password)
  match runHookPhase (cfg.url ++ "/authenticate") hook with
  | HookPhase.fail e => ⟨Except.error e, [], none, cfg1⟩
  | HookPhase.proceed bodyOverride requestURL apps hookLogs =>
    let authRequest := Option.getD bodyOverride cfg1
    let jsonString := authRequest
    let redacted :=
      if mapHasKey authRequest "password" then
        mapSet authRequest "password" (AuthVal.str "*REDACTED*")
      else authRequest
    let cfg2 := if bodyOverride = none then redacted else cfg1
    let logs := hookLogs ++
      [LogLine.infoAuthenticating username, LogLine.debugAuthRequest redacted]
    let request := some (OutboundRequest.mk requestURL jsonString)
    match transport with
    | none => ⟨Except.error AuthError.transportError, logs, request, cfg2⟩
    | some resp =>
      if resp.status ≥ 400 then
        if resp.status = 403 then
          ⟨Except.error AuthError.invalidCredentials,
            logs ++ [LogLine.warnInvalidCredentials username resp.body], request, cfg2⟩
        else
          ⟨Except.error (AuthError.unexpectedStatus resp.status username resp.body),
            logs ++ [LogLine.errorUnexpectedStatus resp.status username resp.body],
            request, cfg2⟩
      else if resp.status = 202 then
        let logs := logs ++ [LogLine.infoAdditionalFactorRequired username]
        if strStarts resp.contentType "application/json" = false then
          ⟨Except.error (AuthError.invalidResponseBodyContentType resp.contentType),
            logs, request, cfg2⟩
        else
          match resp.jsonBody with
          | none => ⟨Except.error AuthError.jsonDecodeError, logs, request, cfg2⟩
          | some m =>
            ⟨Except.error (AuthError.authenticationIncomplete m), logs, request, cfg2⟩
      else
        ⟨Except.ok (JWTResponse.mk resp.body apps), logs, request, cfg2⟩

/-- The hook outcomes under which Authenticate proceeds to the
delegation request: no hook configured, or a truthy object result. -/
def hookProceeds : Option HookOutcome → Bool
  | none => true
  | some (HookOutcome.value true true _ _ _) => true
  | _ => false

/-- The allowed applications the call will return, as determined by
the hook outcome. -/
def hookApps : Option HookOutcome → List String
  | some (HookOutcome.value _ _ _ _ (some l)) => l
  | _ => []

/-- A concrete configuration used to instantiate the universally
quantified theorems below on explicit inputs. -/
def cfgW : AuthConfig := AuthConfig.mk [] "http://provider"

/-- A concrete 200 provider response. -/
def respW200 : ProviderResponse := ProviderResponse.mk 200 "application/jwt" "a.b.c" none

/-- A concrete 403 provider response. -/
def respW403 : ProviderResponse := ProviderResponse.mk 403 "text/plain" "denied" none

/-- A concrete 500 provider response. -/
def respW500 : ProviderResponse := ProviderResponse.mk 500 "text/plain" "boom" none

/-- A concrete 202 provider response that is not JSON-typed. -/
def respW202bad : ProviderResponse := ProviderResponse.mk 202 "text/plain" "x" none

/-- A concrete 202 provider response with a JSON body. -/
def respW202json : ProviderResponse :=
  ProviderResponse.mk 202 "application/json" "x" (some [("factor", AuthVal.str "sms")])

/-- A token value with a given raw string and no application list. -/
def tokenW (s : String) : JWTResponse := JWTResponse.mk s []

/-- A cache holding one entry with an already-passed int64 expiry. -/
def cacheW9 : ExpCache := cacheSet emptyCache "tok.C" (GoVal.vint64 5)

/-- A verifier outcome reporting invalid with the given error. -/
def verifyW (e : Option GoError) : VerifyOutput :=
  VerifyOutput.mk false (StandardClaims.mk 0) e

/-- The value Authenticate returns once the delegation request has
been issued, as a function of the provider response
(handler.go:204-247). -/
def delegationResult (hook : Option HookOutcome) (username : String) :
    Option ProviderResponse → Except AuthError JWTResponse
  | none => Except.error AuthError.transportError
  | some resp =>
    if resp.status ≥ 400 then
      if resp.status = 403 then Except.error AuthError.invalidCredentials
      else Except.error (AuthError.unexpectedStatus resp.status username resp.body)
    else if resp.status = 202 then
      if strStarts resp.contentType "application/json" = false then
        Except.error (AuthError.invalidResponseBodyContentType resp.contentType)
      else
        match resp.jsonBody with
        | none => Except.error AuthError.jsonDecodeError
        | some m => Except.error (AuthError.authenticationIncomplete m)
    else Except.ok (JWTResponse.mk resp.body (hookApps hook))

/-- When the hook lets the call proceed, the result of Authenticate
is exactly the interpretation of the provider response. -/
theorem authenticate_result_of_proceeds (cfg : AuthConfig) (hook : Option HookOutcome)
    (username password : String) (transport : Option ProviderResponse)
    (hpass : hookProceeds hook = true) :
    (authenticate cfg hook username password transport).result
      = delegationResult hook username transport := by
  cases hook with
  | none =>
    cases transport with
    | none => rfl
    | some resp =>
      simp only [authenticate, runHookPhase, hookApps, delegationResult]
      repeat' first | rfl | split
  | some ho =>
    cases ho with
    | runError => simp [hookProceeds] at hpass
    | exportsNotFunction => simp [hookProceeds] at hpass
    | callError => simp [hookProceeds] at hpass
    | value t o b u a =>
      cases t with
      | false => simp [hookProceeds] at hpass
      | true =>
        cases o with
        | false => simp [hookProceeds] at hpass
        | true =>
          cases transport with
          | none => cases b <;> cases u <;> cases a <;> rfl
          | some resp =>
            cases b <;> cases u <;> cases a <;>
              (simp only [authenticate, runHookPhase, hookApps, delegationResult]
               repeat' first | rfl | split
               all_goals simp_all)

/-- C1: refuted as stated; the code panics instead.  A token verified
valid with no expiry claim is cached under the never-expires sentinel
(the untyped constant 0, Go dynamic type int) and the first call
returns (true, token, nil); but the next IsAuthenticated call with
the same token hits that entry and the exp.(int64) type assertion at
handler.go:262 fails, so the call panics rather than returning
authenticated without re-verification. -/
theorem isAuthenticated_neverExpires_second_call_panics :
    (isAuthenticated emptyCache 100 (ReaderOutcome.ok (tokenW "tok.A"))
        (VerifyOutput.mk true (StandardClaims.mk 0) none)).ret
      = IsAuthRet.ret true (some (tokenW "tok.A")) none
    ∧ (isAuthenticated emptyCache 100 (ReaderOutcome.ok (tokenW "tok.A"))
        (VerifyOutput.mk true (StandardClaims.mk 0) none)).cache "tok.A"
      = some (GoVal.vint 0)
    ∧ (isAuthenticated
        ((isAuthenticated emptyCache 100 (ReaderOutcome.ok (tokenW "tok.A"))
          (VerifyOutput.mk true (StandardClaims.mk 0) none)).cache) 101
        (ReaderOutcome.ok (tokenW "tok.A"))
        (VerifyOutput.mk true (StandardClaims.mk 0) none)).ret
      = IsAuthRet.panicked := by
  refine ⟨rfl, ?_, ?_⟩ <;> decide

/-- C2: refuted as stated; the cache-hit path is not total.  The
never-expires entry is stored by IsAuthenticated itself with Go
dynamic type int (the untyped constant 0 at handler.go:271), and on
read-back the single-result assertion exp.(int64) at handler.go:262
fails on it, so the call panics instead of returning a result. -/
theorem isAuthenticated_sentinel_hit_assertion_fails :
    (isAuthenticated emptyCache 50 (ReaderOutcome.ok (tokenW "tok.B"))
        (VerifyOutput.mk true (StandardClaims.mk 0) none)).cache "tok.B"
      = some (GoVal.vint 0)
    ∧ assertInt64 (GoVal.vint 0) = none
    ∧ (isAuthenticated (cacheSet emptyCache "tok.B" (GoVal.vint 0)) 50
        (ReaderOutcome.ok (tokenW "tok.B"))
        (VerifyOutput.mk false (StandardClaims.mk 0) none)).ret
      = IsAuthRet.panicked := by
  refine ⟨?_, rfl, ?_⟩ <;> decide

/-- C3: refuted as stated.  When the pre-auth hook replaces the
request body and that body carries the password, the debug log of
the hook-mapped request body (handler.go:157) is emitted before the
redaction at handler.go:187-190, so the password value appears in
log output. -/
theorem authenticate_hook_body_password_logged :
    List.any (authenticate cfgW
        (some (HookOutcome.value true true
          (some [("password", AuthVal.str "hunter2")]) none none))
        "alice" "hunter2" (some respW200)).logs
      (logLineMentions "hunter2") = true := by decide

/-- C4: refuted as stated.  authRequest (handler.go:109) aliases the
configured parameters map, so the username/password injection at
handler.go:110-111 and the redaction at handler.go:187-190 mutate
the handler's configuration: after a hookless call on an initially
empty configured map, that map holds the username and the redacted
password marker, so the mutation persists past the call. -/
theorem authenticate_mutates_configured_parameters :
    (authenticate cfgW none "alice" "secret1" (some respW200)).finalParams
      = [("username", AuthVal.str "alice"), ("password", AuthVal.str "*REDACTED*")]
    ∧ (authenticate cfgW none "alice" "secret1" (some respW200)).finalParams
      ≠ cfgW.parameters := by
  refine ⟨?_, ?_⟩ <;> decide

/-- C5: when a pre-auth hook is configured and returns a falsy
result, Authenticate fails with InvalidCredentialsError and no
outbound HTTP request is made (handler.go:131-134). -/
theorem authenticate_hook_falsy_no_request (cfg : AuthConfig)
    (isObject : Bool) (body : Option AuthMap) (url : Option String)
    (apps : Option (List String)) (username password : String)
    (transport : Option ProviderResponse) :
    (authenticate cfg (some (HookOutcome.value false isObject body url apps))
        username password transport).result
      = Except.error AuthError.invalidCredentials
    ∧ (authenticate cfg (some (HookOutcome.value false isObject body url apps))
        username password transport).request = none := by
  exact ⟨rfl, rfl⟩

/-- C6: status-code interpretation of the provider response
(handler.go:212-247): a non-202 status below 400 yields an outcome
whose JWT is the full response body; 403 fails with
InvalidCredentialsError; any other status of 400 or above fails with
a generic error carrying the status code and response body. -/
theorem authenticate_status_code_interpretation (cfg : AuthConfig)
    (hook : Option HookOutcome) (username password : String)
    (resp : ProviderResponse) (hpass : hookProceeds hook = true) :
    (resp.status < 400 → resp.status ≠ 202 →
      (authenticate cfg hook username password (some resp)).result
        = Except.ok (JWTResponse.mk resp.body (hookApps hook)))
    ∧ (resp.status = 403 →
      (authenticate cfg hook username password (some resp)).result
        = Except.error AuthError.invalidCredentials)
    ∧ (400 ≤ resp.status → resp.status ≠ 403 →
      (authenticate cfg hook username password (some resp)).result
        = Except.error (AuthError.unexpectedStatus resp.status username resp.body)) := by
  rw [authenticate_result_of_proceeds cfg hook username password (some resp) hpass]
  refine ⟨?_, ?_, ?_⟩
  · intro h1 h2
    have h4 : ¬ resp.status ≥ 400 := by omega
    simp [delegationResult, h4, h2]
  · intro h3
    simp [delegationResult, h3]
  · intro h1 h2
    have h4 : resp.status ≥ 400 := h1
    simp [delegationResult, h4, h2]

/-- Witness for C6: instantiation at 200, 403 and 500 responses. -/
theorem authenticate_status_code_interpretation_witness :
    (authenticate cfgW none "u" "p" (some respW200)).result
      = Except.ok (JWTResponse.mk "a.b.c" [])
    ∧ (authenticate cfgW none "u" "p" (some respW403)).result
      = Except.error AuthError.invalidCredentials
    ∧ (authenticate cfgW none "u" "p" (some respW500)).result
      = Except.error (AuthError.unexpectedStatus 500 "u" "boom") := by
  refine ⟨?_, ?_, ?_⟩
  · exact (authenticate_status_code_interpretation cfgW none "u" "p" respW200
      (by decide)).1 (by decide) (by decide)
  · exact (authenticate_status_code_interpretation cfgW none "u" "p" respW403
      (by decide)).2.1 (by decide)
  · exact (authenticate_status_code_interpretation cfgW none "u" "p" respW500
      (by decide)).2.2 (by decide) (by decide)

/-- C7: the 202 path (handler.go:225-241).  If the Content-Type does
not start with application/json the call fails with
InvalidResponseBodyContentTypeError carrying that content type;
otherwise, when the body decodes to a map m, it fails with
AuthenticationIncompleteError whose AdditionalProperties is m. -/
theorem authenticate_202_additional_factor (cfg : AuthConfig)
    (hook : Option HookOutcome) (username password : String)
    (resp : ProviderResponse) (hpass : hookProceeds hook = true)
    (h202 : resp.status = 202) :
    (strStarts resp.contentType "application/json" = false →
      (authenticate cfg hook username password (some resp)).result
        = Except.error (AuthError.invalidResponseBodyContentType resp.contentType))
    ∧ (∀ m, strStarts resp.contentType "application/json" = true →
        resp.jsonBody = some m →
      (authenticate cfg hook username password (some resp)).result
        = Except.error (AuthError.authenticationIncomplete m)) := by
  rw [authenticate_result_of_proceeds cfg hook username password (some resp) hpass]
  refine ⟨?_, ?_⟩
  · intro hct
    simp [delegationResult, h202, hct]
  · intro m hct hjson
    simp [delegationResult, h202, hct, hjson]

/-- Witness for C7: instantiation at a text/plain 202 response and at
an application/json 202 response decoding to a one-entry map. -/
theorem authenticate_202_additional_factor_witness :
    (authenticate cfgW none "u" "p" (some respW202bad)).result
      = Except.error (AuthError.invalidResponseBodyContentType "text/plain")
    ∧ (authenticate cfgW none "u" "p" (some respW202json)).result
      = Except.error
          (AuthError.authenticationIncomplete [("factor", AuthVal.str "sms")]) := by
  refine ⟨?_, ?_⟩
  · exact (authenticate_202_additional_factor cfgW none "u" "p" respW202bad
      (by decide) (by decide)).1 (by decide)
  · exact (authenticate_202_additional_factor cfgW none "u" "p" respW202json
      (by decide) (by decide)).2 [("factor", AuthVal.str "sms")] (by decide) (by decide)

/-- C8: on a cache miss with a verifier error (handler.go:282-291),
a *jwt.ValidationError whose bitmask meets the acceptable set
(expired or signature-invalid) yields (false, nil, nil); any other
error is propagated as (false, nil, err); the verifier was invoked. -/
theorem isAuthenticated_miss_error_classification (cache : ExpCache)
    (now : Int) (token : JWTResponse) (verify : VerifyOutput) (e : GoError)
    (hmiss : cache token.jwt = none) (herr : verify.err = some e) :
    ((∃ errs, e = GoError.jwtValidationError errs ∧ errs &&& acceptableErrors ≠ 0) →
      (isAuthenticated cache now (ReaderOutcome.ok token) verify).ret
        = IsAuthRet.ret false none none)
    ∧ ((∀ errs, e = GoError.jwtValidationError errs → errs &&& acceptableErrors = 0) →
      (isAuthenticated cache now (ReaderOutcome.ok token) verify).ret
        = IsAuthRet.ret false none (some e))
    ∧ (isAuthenticated cache now (ReaderOutcome.ok token) verify).verifierCalled
        = true := by
  simp only [isAuthenticated, hmiss, herr]
  refine ⟨?_, ?_, ?_⟩
  · rintro ⟨errs, rfl, hne⟩
    simp [hne]
  · intro hnot
    cases e with
    | jwtValidationError errs => simp [hnot errs rfl]
    | noTokenError => simp
    | readerError t => simp
    | verifierOtherError t => simp
  · cases e <;> simp <;> split <;> rfl

/-- Witness for C8: instantiation at an acceptable validation error
(the expired bit, 16) and at a non-classification verifier error. -/
theorem isAuthenticated_miss_error_classification_witness :
    (isAuthenticated emptyCache 7 (ReaderOutcome.ok (tokenW "tok.D"))
        (verifyW (some (GoError.jwtValidationError 16)))).ret
      = IsAuthRet.ret false none none
    ∧ (isAuthenticated emptyCache 7 (ReaderOutcome.ok (tokenW "tok.D"))
        (verifyW (some (GoError.verifierOtherError 3)))).ret
      = IsAuthRet.ret false none (some (GoError.verifierOtherError 3)) := by
  refine ⟨?_, ?_⟩
  · exact (isAuthenticated_miss_error_classification emptyCache 7 (tokenW "tok.D")
      (verifyW (some (GoError.jwtValidationError 16))) (GoError.jwtValidationError 16)
      rfl rfl).1 ⟨16, rfl, by decide⟩
  · exact (isAuthenticated_miss_error_classification emptyCache 7 (tokenW "tok.D")
      (verifyW (some (GoError.verifierOtherError 3))) (GoError.verifierOtherError 3)
      rfl rfl).2.1 (fun errs h => nomatch h)

/-- C9: a cache hit whose stored value is an int64 expiry that is not
strictly in the future (and is not the never-expires sentinel, which
is stored with dynamic type int) falls through with no further
action: the verifier is not invoked, the cache is unchanged, and the
call returns (false, nil, nil) via the default path
(handler.go:265-293). -/
theorem isAuthenticated_stale_hit_no_action (cache : ExpCache) (now e : Int)
    (token : JWTResponse) (verify : VerifyOutput)
    (hhit : cache token.jwt = some (GoVal.vint64 e))
    (hstale : e ≤ now) :
    isAuthenticated cache now (ReaderOutcome.ok token) verify
      = ⟨IsAuthRet.ret false none none, cache, false⟩ := by
  simp only [isAuthenticated, hhit, assertInt64, goEqZeroInt]
  simp [Int.not_lt.mpr hstale]

/-- Witness for C9: instantiation at a one-entry cache whose stored
expiry 5 is not after the current time 10. -/
theorem isAuthenticated_stale_hit_no_action_witness :
    cacheW9 "tok.C" = some (GoVal.vint64 5)
    ∧ (5 : Int) ≤ 10
    ∧ isAuthenticated cacheW9 10 (ReaderOutcome.ok (tokenW "tok.C")) (verifyW none)
        = ⟨IsAuthRet.ret false none none, cacheW9, false⟩ := by
  refine ⟨by decide, by decide, ?_⟩
  exact isAuthenticated_stale_hit_no_action cacheW9 10 5 (tokenW "tok.C")
    (verifyW none) (by decide) (by decide)

/-- C10: only positive verification results are ever stored.  Every
IsAuthenticated call either leaves the cache unchanged, or the
verifier reported the presented token valid (nil error and valid
flag) on a miss and the call inserted exactly that token with the
never-expires sentinel or its int64 expiry (handler.go:268-279). -/
theorem expCache_only_positive_results_stored (cache : ExpCache) (now : Int)
    (reader : ReaderOutcome) (verify : VerifyOutput) :
    (isAuthenticated cache now reader verify).cache = cache
    ∨ (verify.err = none ∧ verify.valid = true
       ∧ (isAuthenticated cache now reader verify).verifierCalled = true
       ∧ ∃ t, reader = ReaderOutcome.ok t ∧ cache t.jwt = none
         ∧ ((isAuthenticated cache now reader verify).cache
              = cacheSet cache t.jwt (GoVal.vint 0)
            ∨ (isAuthenticated cache now reader verify).cache
              = cacheSet cache t.jwt (GoVal.vint64 verify.claims.expiresAt))) := by
  cases reader with
  | fail e =>
    left
    simp only [isAuthenticated]
    split <;> rfl
  | ok token =>
    cases hcv : cache token.jwt with
    | some v =>
      left
      simp only [isAuthenticated, hcv]
      cases v with
      | vint n => rfl
      | vint64 n => simp only [assertInt64]; split <;> rfl
    | none =>
      by_cases hv : verify.err = none ∧ verify.valid = true
      · by_cases h0 : verify.claims.expiresAt = 0
        · right
          refine ⟨hv.1, hv.2, ?_, token, rfl, hcv, Or.inl ?_⟩ <;>
            simp [isAuthenticated, hcv, hv, h0]
        · by_cases hfut : verify.claims.expiresAt > now
          · right
            refine ⟨hv.1, hv.2, ?_, token, rfl, hcv, Or.inr ?_⟩ <;>
              simp [isAuthenticated, hcv, hv, h0, hfut]
          · left
            simp [isAuthenticated, hcv, hv, h0, hfut]
      · left
        simp only [isAuthenticated, hcv]
        rw [if_neg hv]
        cases hverr : verify.err with
        | none => rfl
        | some e => cases e <;> first | rfl | (simp only []; split <;> rfl)

end ServiceGateway
